import Mathlib

/-!
Verification of the homework status bot (src/homework.py) against its
natural-language specification.

The Python module is shallowly embedded: each function of the source is
translated into an executable Lean definition.  Python exceptions are
modelled by the `PyExc` type and fallible computations by `Except PyExc`;
JSON-like Python values by `PyValue`; the outcome of the two opaque
capabilities (HTTP fetch via requests.get, chat delivery via
bot.send_message) is passed in explicitly as data (`FetchOutcome`,
`Delivery`), so every cycle of the polling loop is a pure function of the
mutable loop state and of the capability outcomes of that cycle.
-/

set_option autoImplicit false

namespace Homework

/-- Python exception values, restricted to the kinds the embedded code can
raise.  Each constructor carries the message text (for KeyError, the key). -/
inductive PyExc where
  | typeError (msg : String)
  | keyError (msg : String)
  | valueError (msg : String)
  | indexError (msg : String)
  | attributeError (msg : String)
  | requestException (msg : String)
  | unboundLocalError (name : String)
  | notForSendingError (msg : String)
deriving DecidableEq

/-- A JSON-like Python value: None, str, int, list or dict (a dict is a
key/value sequence looked up by first match, keys are strings as in the
API payloads). -/
inductive PyValue where
  | pyNone
  | str (s : String)
  | int (n : Int)
  | list (xs : List PyValue)
  | dict (kvs : List (String × PyValue))

/-- First-match association lookup, the semantics of Python dict access for
our list-of-pairs representation. -/
def assoc (k : String) : List (String × PyValue) → Option PyValue
  | [] => Option.none
  | (k2, v) :: rest => if k2 = k then some v else assoc k rest

/-- Short Python type name of a value, as used in error messages. -/
def typeShort : PyValue → String
  | .pyNone => "NoneType"
  | .str _ => "str"
  | .int _ => "int"
  | .list _ => "list"
  | .dict _ => "dict"

/-- Rendering of `type(v)` as it appears inside a Python f-string. -/
def typeName (v : PyValue) : String :=
  "<class \x27" ++ typeShort v ++ "\x27>"

/-- Python truthiness of a value (`bool(v)`). -/
def pyTruthy : PyValue → Bool
  | .pyNone => false
  | .str s => !s.isEmpty
  | .int n => decide (n ≠ 0)
  | .list xs => !xs.isEmpty
  | .dict kvs => !kvs.isEmpty

/-- Truthiness of the result of `dict.get`, where a missing key yields
None, which is falsy. -/
def optTruthy : Option PyValue → Bool
  | Option.none => false
  | some v => pyTruthy v

/-- The escapes of `repr` common to both quote choices: the backslash
first, then the control characters tab, newline and carriage return. -/
def pyEscapeCommon (s : String) : String :=
  (((s.replace "\\" "\\\\").replace "\t" "\\t").replace "\n" "\\n").replace "\r" "\\r"

/-- `repr` of a Python str over the modelled character domain (printable
characters plus backslash, tab, newline, carriage return): double quotes
are chosen when the string contains a single quote but no double quote,
otherwise single quotes with the single quote escaped. -/
def pyStrRepr (s : String) : String :=
  let t := pyEscapeCommon s
  if s.contains '\x27' && !(s.contains '"') then
    "\"" ++ t ++ "\""
  else
    "\x27" ++ t.replace "\x27" "\\\x27" ++ "\x27"

mutual

/-- `repr(v)`: None and ints as themselves, strings quoted, lists and
dicts recursively with their elements rendered by repr. -/
def pyRepr : PyValue → String
  | .pyNone => "None"
  | .str s => pyStrRepr s
  | .int n => toString n
  | .list xs => "[" ++ pyReprList xs ++ "]"
  | .dict kvs => "\x7b" ++ pyReprDict kvs ++ "\x7d"

/-- Comma-separated reprs of the elements of a list. -/
def pyReprList : List PyValue → String
  | [] => ""
  | [x] => pyRepr x
  | x :: rest => pyRepr x ++ ", " ++ pyReprList rest

/-- Comma-separated `key: value` reprs of the entries of a dict. -/
def pyReprDict : List (String × PyValue) → String
  | [] => ""
  | [(k, v)] => pyStrRepr k ++ ": " ++ pyRepr v
  | (k, v) :: rest => pyStrRepr k ++ ": " ++ pyRepr v ++ ", " ++ pyReprDict rest

end

/-- Rendering of a value inside an f-string (`str(v)`): a string is
itself, everything else renders as its repr (so a list as e.g. `[1]`, a
dict with quoted keys), and a missing value (None) as `None`. -/
def pystr : Option PyValue → String
  | some (.str s) => s
  | some v => pyRepr v
  | Option.none => "None"

/-- `v.get(k)`: method call on a mapping; on a non-mapping the attribute
access itself raises AttributeError. -/
def PyValue.getAttrGet : PyValue → String → Except PyExc (Option PyValue)
  | .dict kvs, k => .ok (assoc k kvs)
  | v, _ =>
      .error (.attributeError
        ("\x27" ++ typeShort v ++ "\x27 object has no attribute \x27get\x27"))

/-- `v[k]`: dict subscription; KeyError on a missing key, TypeError on a
non-mapping. -/
def PyValue.getItem : PyValue → String → Except PyExc PyValue
  | .dict kvs, k =>
      match assoc k kvs with
      | some v => .ok v
      | Option.none => .error (.keyError k)
  | v, _ =>
      .error (.typeError ("\x27" ++ typeShort v ++ "\x27 object is not subscriptable"))

/-- `v[i]`: list indexing; IndexError out of range, TypeError on a
non-sequence. -/
def PyValue.getIndex : PyValue → Nat → Except PyExc PyValue
  | .list xs, i =>
      match xs.get? i with
      | some v => .ok v
      | Option.none => .error (.indexError "list index out of range")
  | v, _ =>
      .error (.typeError ("\x27" ++ typeShort v ++ "\x27 object is not subscriptable"))

/-- `int(v)`: identity on ints, parse on strings, TypeError otherwise. -/
def pyInt : PyValue → Except PyExc Int
  | .int n => .ok n
  | .str s =>
      match s.toInt? with
      | some n => .ok n
      | Option.none => .error (.valueError ("invalid literal for int(): " ++ s))
  | v => .error (.typeError ("int() argument must not be " ++ typeShort v))

/-- `str(e)` for an exception, as interpolated into f-strings.  Python
renders the argument of a KeyError with repr, hence the added quotes. -/
def excStr : PyExc → String
  | .typeError m => m
  | .keyError m => "\x27" ++ m ++ "\x27"
  | .valueError m => m
  | .indexError m => m
  | .attributeError m => m
  | .requestException m => m
  | .unboundLocalError n =>
      "local variable \x27" ++ n ++ "\x27 referenced before assignment"
  | .notForSendingError m => m

/-- RETRY_PERIOD = 600 (src/homework.py line 17). -/
def RETRY_PERIOD : Nat := 600

/-- HOMEWORK_VERDICTS (src/homework.py lines 22-26): the static verdict
catalog mapping a verdict code to its display sentence. -/
def HOMEWORK_VERDICTS : List (String × String) :=
  [("approved", "Работа проверена: ревьюеру всё понравилось. Ура!"),
   ("reviewing", "Работа взята на проверку ревьюером."),
   ("rejected", "Работа проверена: у ревьюера есть замечания.")]

/-- First-match lookup in the verdict catalog. -/
def assocStr (k : String) : List (String × String) → Option String
  | [] => Option.none
  | (k2, v) :: rest => if k2 = k then some v else assocStr k rest

/-- `HOMEWORK_VERDICTS[status]` combined with the membership test
`status in HOMEWORK_VERDICTS`: yields the verdict text when the status
value is a string key of the catalog, and nothing otherwise (a non-string
value is never a key, since all keys are strings). -/
def verdictOf : Option PyValue → Option String
  | some (.str s) => assocStr s HOMEWORK_VERDICTS
  | _ => Option.none

/-- `v in HOMEWORK_VERDICTS`: Python dict membership hashes the key, so an
unhashable value (a list or a dict) raises TypeError; a hashable value is
a member exactly when it is one of the string keys (None and ints hash
fine and are simply not present). -/
def verdictContains : PyValue → Except PyExc Bool
  | .str s => .ok (assocStr s HOMEWORK_VERDICTS).isSome
  | .int _ => .ok false
  | .pyNone => .ok false
  | .list _ => .error (.typeError "unhashable type: \x27list\x27")
  | .dict _ => .error (.typeError "unhashable type: \x27dict\x27")

/-- Membership test on the result of `dict.get`: a missing key gave None,
which is hashable and not a member. -/
def statusMember : Option PyValue → Except PyExc Bool
  | some v => verdictContains v
  | Option.none => .ok false

/-- The three credential environment values; `Option.none` models an
absent environment variable (os.getenv yields None). -/
structure Tokens where
  practicum_token : Option String
  telegram_token : Option String
  telegram_chat_id : Option String

/-- Python falsiness of an optional environment string: absent (None) or
empty. -/
def pyFalsyStr : Option String → Bool
  | Option.none => true
  | some s => s.isEmpty

/-- The critical log line emitted for a missing environment variable
(src/homework.py lines 55-57). -/
def criticalMsg (key : String) : String :=
  "Отсутствует обязательная переменная окружения: " ++ key ++
  ". Программа принудительно остановлена."

/-- check_tokens (src/homework.py lines 46-59): walks the three
credentials in order; the first falsy one logs a critical message and
calls sys.exit(1), modelled as `.error (logLine, exitCode)`; otherwise
returns True. -/
def check_tokens (t : Tokens) : Except (String × Nat) Bool :=
  if pyFalsyStr t.practicum_token then
    .error (criticalMsg "PRACTICUM_TOKEN", 1)
  else if pyFalsyStr t.telegram_token then
    .error (criticalMsg "TELEGRAM_TOKEN", 1)
  else if pyFalsyStr t.telegram_chat_id then
    .error (criticalMsg "TELEGRAM_CHAT_ID", 1)
  else
    .ok true

/-- Whether main (src/homework.py line 130) gets past check_tokens and
enters the polling loop. -/
def main_reaches_loop (t : Tokens) : Bool :=
  match check_tokens t with
  | .ok _ => true
  | .error _ => false

/-- Outcome of one call of the opaque chat-delivery capability
(bot.send_message): either it returns, or it raises some exception. -/
inductive Delivery where
  | success
  | failure (e : PyExc)
deriving DecidableEq

/-- send_message (src/homework.py lines 62-69): wraps the delivery call in
try/except Exception, logging and swallowing any exception, so it always
returns normally.  The result type still allows an error so that the
containment is a theorem rather than a typing accident. -/
def send_message (d : Delivery) : Except PyExc Unit :=
  match d with
  | .success => .ok ()
  | .failure _e => .ok ()

/-- Outcome of one call of the opaque HTTP fetch capability
(requests.get): either a response with a status code and a parsed JSON
body, or a raised transport exception. -/
inductive FetchOutcome where
  | ok (statusCode : Nat) (body : PyValue)
  | exn (msg : String)

/-- get_api_answer (src/homework.py lines 72-87): requests.get is wrapped
in try/except Exception which only logs; after the except branch the code
falls through to `response.status_code`, so a transport failure surfaces
as UnboundLocalError on `response`.  A non-200 status raises
requests.exceptions.RequestException carrying the code; otherwise the
parsed body is returned. -/
def get_api_answer (f : FetchOutcome) : Except PyExc PyValue :=
  match f with
  | .exn _msg => .error (.unboundLocalError "response")
  | .ok code body =>
      if code ≠ 200 then
        .error (.requestException
          ("Ошибка в ответе сервера API! Код ответа: " ++ toString code))
      else
        .ok body

/-- check_response (src/homework.py lines 90-102): three shape checks in
order, first failure wins — dict, then key homeworks present, then its
value a list; a valid response (empty homeworks list included) passes
silently. -/
def check_response (response : PyValue) : Except PyExc Unit :=
  match response with
  | .dict kvs =>
      match assoc "homeworks" kvs with
      | Option.none =>
          .error (.keyError "В ответе API домашней работы нет ключа \"homeworks\"")
      | some hw =>
          match hw with
          | .list _ => .ok ()
          | _ =>
              .error (.typeError
                ("В ответе API домашней работы данные приходят " ++
                 "в другом формате (ожидается непустой список)."))
  | v =>
      .error (.typeError
        ("В ответе API структура данных " ++
         "не соответствует ожиданиям (ожидается словарь dict), " ++
         "а получили другой тип данных: " ++ typeName v ++ "."))

/-- parse_status (src/homework.py lines 105-119): requires a truthy
homework_name, then a truthy status that is a key of HOMEWORK_VERDICTS,
and renders the fixed notification template.  The guard
`not homework_status or homework_status not in HOMEWORK_VERDICTS` is a
short-circuit or: a falsy status raises the KeyError without evaluating
membership, a truthy one evaluates the membership test, which itself
raises TypeError on an unhashable value. -/
def parse_status (homework : PyValue) : Except PyExc String :=
  match homework.getAttrGet "homework_name" with
  | .error e => .error e
  | .ok homework_name =>
    if !(optTruthy homework_name) then
      .error (.keyError "В ответе API домашней работы нет ключа \"homework_name\"")
    else
      match homework.getAttrGet "status" with
      | .error e => .error e
      | .ok homework_status =>
        if !(optTruthy homework_status) then
          .error (.keyError "В ответе API домашней работы нет статуса или статус неизвестен.")
        else
          match statusMember homework_status with
          | .error e => .error e
          | .ok false =>
              .error (.keyError "В ответе API домашней работы нет статуса или статус неизвестен.")
          | .ok true =>
              match verdictOf homework_status with
              | some verdict =>
                  .ok ("Изменился статус проверки работы \"" ++ pystr homework_name ++
                       "\". " ++ verdict)
              | Option.none => .error (.keyError "status")

/-- The mutable state of the polling loop (src/homework.py lines 133-135):
the fetch cursor, the last status notification text and the last error
notification text. -/
structure PollState where
  timestamp : Int
  last_status : String
  error_message : String
deriving DecidableEq

/-- The capability outcomes available to one cycle: the fetch outcome and
the delivery outcome of the (at most one) status send and of the (at most
one) error send. -/
structure CycleEnv where
  fetch : FetchOutcome
  statusSend : Delivery
  errorSend : Delivery

/-- Status derivation (src/homework.py lines 142-145): an empty (falsy)
homeworks value reuses the previous status text; otherwise the first
record is parsed. -/
def derive_status (last_status : String) (homeworks : PyValue) : Except PyExc String :=
  if !(pyTruthy homeworks) then .ok last_status
  else
    match homeworks.getIndex 0 with
    | .error e => .error e
    | .ok h => parse_status h

/-- Diff-and-notify (src/homework.py lines 147-154): when the derived
status differs from last_status the message is sent, then last_status and
then the cursor are assigned in that order — so a raise in the
current_date conversion leaves last_status already updated.  Returns the
state after the step, whether a send_message call was made, and the
exception escaping the step, if any. -/
def diffNotify (s : PollState) (d : Delivery) (status : String) (response : PyValue) :
    PollState × Bool × Option PyExc :=
  if status ≠ s.last_status then
    match send_message d with
    | .ok _ =>
        let s1 : PollState := { s with last_status := status }
        match response.getItem "current_date" with
        | .error e => (s1, true, some e)
        | .ok cd =>
            match pyInt cd with
            | .error e => (s1, true, some e)
            | .ok n => ({ s1 with timestamp := n }, true, Option.none)
    | .error e => (s, true, some e)
  else
    (s, false, Option.none)

/-- The try-block of one loop cycle (src/homework.py lines 138-154):
fetch, validate, derive the status, then diff-and-notify.  Returns the
state after the block, whether a status send was made, and the exception
reaching the except-handler, if any. -/
def tryBody (s : PollState) (env : CycleEnv) : PollState × Bool × Option PyExc :=
  match get_api_answer env.fetch with
  | .error e => (s, false, some e)
  | .ok response =>
    match check_response response with
    | .error e => (s, false, some e)
    | .ok _ =>
      match response.getItem "homeworks" with
      | .error e => (s, false, some e)
      | .ok homeworks =>
        match derive_status s.last_status homeworks with
        | .error e => (s, false, some e)
        | .ok status => diffNotify s env.statusSend status response

/-- The error text formatted by the except-handler
(src/homework.py line 157). -/
def errMessage (e : PyExc) : String :=
  "Сбой в работе программы: " ++ excStr e

/-- What the error-notification step did in a cycle. -/
inductive ErrorNotifyOutcome where
  | skipped
  | delivered
  | handledNotForSending
  | escaped (e : PyExc)
deriving DecidableEq

/-- Whether the step called the delivery capability at all. -/
def ErrorNotifyOutcome.attempted : ErrorNotifyOutcome → Bool
  | .skipped => false
  | _ => true

/-- The error-notification step of the except-handler (src/homework.py
lines 160-167): a message equal to the last error text is skipped;
otherwise send_message is called and, when it returns, error_message is
assigned; a NotForSendingError raised by send_message would be caught and
logged, any other exception would escape the handler. -/
def errorNotify (s : PollState) (d : Delivery) (message : String) :
    PollState × ErrorNotifyOutcome :=
  if message ≠ s.error_message then
    match send_message d with
    | .ok _ => ({ s with error_message := message }, .delivered)
    | .error e =>
        match e with
        | .notForSendingError _ => (s, .handledNotForSending)
        | _ => (s, .escaped e)
  else
    (s, .skipped)

/-- One full cycle of the while-loop (src/homework.py lines 137-170): the
try-block, then on exception the error path, then the finally-sleep.
Returns the state after the cycle, the exception terminating the loop if
one escaped, and the number of seconds slept in the finally-block. -/
def runCycle (s : PollState) (env : CycleEnv) : PollState × Option PyExc × Nat :=
  match tryBody s env with
  | (s1, _, Option.none) => (s1, Option.none, RETRY_PERIOD)
  | (s1, _, some e) =>
      match errorNotify s1 env.errorSend (errMessage e) with
      | (s2, .escaped e2) => (s2, some e2, RETRY_PERIOD)
      | (s2, _) => (s2, Option.none, RETRY_PERIOD)

/-- Whether a value is a Python mapping. -/
def PyValue.isDict : PyValue → Bool
  | .dict _ => true
  | _ => false

/-- Whether a value is a Python list. -/
def PyValue.isList : PyValue → Bool
  | .list _ => true
  | _ => false

/-! ## Helper lemmas -/

theorem send_message_ok (d : Delivery) : send_message d = Except.ok () := by
  cases d <;> rfl

theorem verdict_key_not_empty (s v : String) (h : assocStr s HOMEWORK_VERDICTS = some v) :
    s.isEmpty = false := by
  by_cases h1 : s = "approved"
  · subst h1; rfl
  · by_cases h2 : s = "reviewing"
    · subst h2; rfl
    · by_cases h3 : s = "rejected"
      · subst h3; rfl
      · exfalso
        have g1 : ¬("approved" = s) := fun hh => h1 hh.symm
        have g2 : ¬("reviewing" = s) := fun hh => h2 hh.symm
        have g3 : ¬("rejected" = s) := fun hh => h3 hh.symm
        simp [HOMEWORK_VERDICTS, assocStr, g1, g2, g3] at h

theorem verdictOf_truthy (st : Option PyValue) (v : String) (h : verdictOf st = some v) :
    optTruthy st = true := by
  cases st with
  | none => simp [verdictOf] at h
  | some pv =>
    cases pv with
    | str s =>
      simp only [verdictOf] at h
      simp [optTruthy, pyTruthy, verdict_key_not_empty s v h]
    | pyNone => simp [verdictOf] at h
    | int n => simp [verdictOf] at h
    | list xs => simp [verdictOf] at h
    | dict kvs => simp [verdictOf] at h

theorem verdictOf_member (st : Option PyValue) (v : String) (h : verdictOf st = some v) :
    statusMember st = .ok true := by
  cases st with
  | none => simp [verdictOf] at h
  | some pv =>
    cases pv with
    | str s =>
      simp only [verdictOf] at h
      simp [statusMember, verdictContains, h]
    | pyNone => simp [verdictOf] at h
    | int n => simp [verdictOf] at h
    | list xs => simp [verdictOf] at h
    | dict kvs => simp [verdictOf] at h

theorem diffNotify_last_status (s : PollState) (d : Delivery) (status : String)
    (response : PyValue) :
    (diffNotify s d status response).1.last_status = status := by
  unfold diffNotify
  rw [send_message_ok]
  by_cases h : status = s.last_status
  · simp [h]
  · simp only [ne_eq, h, not_false_eq_true, if_true]
    split
    · rfl
    · split <;> rfl

theorem diffNotify_noop (s : PollState) (d : Delivery) (response : PyValue) (status : String)
    (h : status = s.last_status) :
    diffNotify s d status response = (s, false, Option.none) := by
  unfold diffNotify
  simp [h]

theorem errorNotify_error_message (s : PollState) (d : Delivery) (m : String) :
    (errorNotify s d m).1.error_message = m := by
  unfold errorNotify
  rw [send_message_ok]
  by_cases h : m = s.error_message
  · simp [h]
  · simp [h]

theorem errorNotify_skip (s : PollState) (d : Delivery) (m : String)
    (h : m = s.error_message) :
    errorNotify s d m = (s, .skipped) := by
  unfold errorNotify
  simp [h]

theorem errorNotify_deliver (s : PollState) (d : Delivery) (m : String)
    (h : m ≠ s.error_message) :
    errorNotify s d m = ({ s with error_message := m }, .delivered) := by
  unfold errorNotify
  rw [send_message_ok]
  simp [h]

theorem errorNotify_snd (s : PollState) (d : Delivery) (m : String) :
    (errorNotify s d m).2 = .skipped ∨ (errorNotify s d m).2 = .delivered := by
  by_cases h : m = s.error_message
  · rw [errorNotify_skip s d m h]
    exact Or.inl rfl
  · rw [errorNotify_deliver s d m h]
    exact Or.inr rfl

/-! ## Claims -/

/-- C3: the spec says any transport failure of the fetch and any
non-success HTTP status each surface as an ApiError; on the code a
transport failure is caught, logged, and then the fall-through read of
the unbound response variable raises UnboundLocalError instead of the
RequestException the spec intends, while a non-success status does raise
a RequestException carrying the status code.  This theorem evaluates
get_api_answer at both inputs. -/
theorem C3_transport_failure_not_api_error :
    get_api_answer (.exn "connection refused")
      = .error (.unboundLocalError "response") ∧
    get_api_answer (.ok 500 (.dict []))
      = .error (.requestException "Ошибка в ответе сервера API! Код ответа: 500") :=
  ⟨rfl, rfl⟩

/-- C5: check_response checks its three shape rules in order with the
first failure winning — non-mapping, missing homeworks key, homeworks not
a list — and accepts a mapping whose homeworks is an empty list. -/
theorem C5_check_response_rules (v : PyValue) :
    (v.isDict = false →
      check_response v = .error (.typeError
        ("В ответе API структура данных " ++
         "не соответствует ожиданиям (ожидается словарь dict), " ++
         "а получили другой тип данных: " ++ typeName v ++ "."))) ∧
    (∀ kvs, v = .dict kvs → assoc "homeworks" kvs = Option.none →
      check_response v
        = .error (.keyError "В ответе API домашней работы нет ключа \"homeworks\"")) ∧
    (∀ kvs hw, v = .dict kvs → assoc "homeworks" kvs = some hw → hw.isList = false →
      check_response v = .error (.typeError
        ("В ответе API домашней работы данные приходят " ++
         "в другом формате (ожидается непустой список)."))) ∧
    (∀ kvs, v = .dict kvs → assoc "homeworks" kvs = some (.list []) →
      check_response v = .ok ()) := by
  refine ⟨?_, ?_, ?_, ?_⟩
  · intro h
    cases v with
    | dict kvs => simp [PyValue.isDict] at h
    | pyNone => rfl
    | str s => rfl
    | int n => rfl
    | list xs => rfl
  · intro kvs hv h
    subst hv
    simp [check_response, h]
  · intro kvs hw hv h hl
    subst hv
    simp only [check_response, h]
    cases hw with
    | list xs => simp [PyValue.isList] at hl
    | pyNone => rfl
    | str s => rfl
    | int n => rfl
    | dict kvs2 => rfl
  · intro kvs hv h
    subst hv
    simp [check_response, h]

/-- Witness for C5: each of the four rules exercised at a concrete
input. -/
theorem C5_check_response_rules_witness :
    check_response (.str "x") = .error (.typeError
      ("В ответе API структура данных " ++
       "не соответствует ожиданиям (ожидается словарь dict), " ++
       "а получили другой тип данных: " ++ typeName (.str "x") ++ ".")) ∧
    check_response (.dict [])
      = .error (.keyError "В ответе API домашней работы нет ключа \"homeworks\"") ∧
    check_response (.dict [("homeworks", .str "x")]) = .error (.typeError
      ("В ответе API домашней работы данные приходят " ++
       "в другом формате (ожидается непустой список).")) ∧
    check_response (.dict [("homeworks", .list [])]) = .ok () :=
  ⟨(C5_check_response_rules (.str "x")).1 rfl,
   (C5_check_response_rules (.dict [])).2.1 [] rfl rfl,
   (C5_check_response_rules (.dict [("homeworks", .str "x")])).2.2.1
     [("homeworks", .str "x")] (.str "x") rfl (by simp [assoc]) rfl,
   (C5_check_response_rules (.dict [("homeworks", .list [])])).2.2.2
     [("homeworks", .list [])] rfl (by simp [assoc])⟩

/-- C8: a credential set with any of the three values empty or absent
makes check_tokens log a critical line and exit with status 1 (non-zero)
before the loop is entered; with all three non-empty the check passes and
main reaches the loop. -/
theorem C8_check_tokens_gate (t : Tokens) :
    ((pyFalsyStr t.practicum_token || pyFalsyStr t.telegram_token ||
        pyFalsyStr t.telegram_chat_id) = true →
      (∃ key, check_tokens t = .error (criticalMsg key, 1)) ∧
        main_reaches_loop t = false) ∧
    ((pyFalsyStr t.practicum_token || pyFalsyStr t.telegram_token ||
        pyFalsyStr t.telegram_chat_id) = false →
      check_tokens t = .ok true ∧ main_reaches_loop t = true) := by
  constructor
  · intro h
    by_cases hp : pyFalsyStr t.practicum_token = true
    · exact ⟨⟨"PRACTICUM_TOKEN", by simp [check_tokens, hp]⟩,
        by simp [main_reaches_loop, check_tokens, hp]⟩
    · by_cases ht : pyFalsyStr t.telegram_token = true
      · exact ⟨⟨"TELEGRAM_TOKEN", by simp [check_tokens, hp, ht]⟩,
          by simp [main_reaches_loop, check_tokens, hp, ht]⟩
      · have hc : pyFalsyStr t.telegram_chat_id = true := by
          rw [Bool.not_eq_true] at hp ht
          rw [hp, ht] at h
          simpa using h
        exact ⟨⟨"TELEGRAM_CHAT_ID", by simp [check_tokens, hp, ht, hc]⟩,
          by simp [main_reaches_loop, check_tokens, hp, ht, hc]⟩
  · intro h
    simp only [Bool.or_eq_false_iff] at h
    obtain ⟨⟨hp, ht⟩, hc⟩ := h
    simp [check_tokens, main_reaches_loop, hp, ht, hc]

/-- Witness for C8: a missing first credential blocks the loop; a full
credential set passes the check and reaches the loop. -/
theorem C8_check_tokens_gate_witness :
    main_reaches_loop ⟨Option.none, some "b", some "c"⟩ = false ∧
    check_tokens ⟨some "a", some "b", some "c"⟩ = .ok true ∧
    main_reaches_loop ⟨some "a", some "b", some "c"⟩ = true :=
  ⟨((C8_check_tokens_gate ⟨Option.none, some "b", some "c"⟩).1 (by decide)).2,
   ((C8_check_tokens_gate ⟨some "a", some "b", some "c"⟩).2 (by decide)).1,
   ((C8_check_tokens_gate ⟨some "a", some "b", some "c"⟩).2 (by decide)).2⟩

/-- C1 counterexample: the claim says a cycle whose status delivery fails
leaves last_status and the cursor unchanged; but on the state
(timestamp 0, last_status empty, error_message empty), with the delivery
capability raising, the diff-and-notify step for status "X" and a response
carrying current_date 1000 still sets last_status to "X" and the cursor to
1000 — send_message swallows the failure and the assignments run
unconditionally. -/
theorem C1_counterexample :
    diffNotify ⟨0, "", ""⟩ (.failure (.requestException "network down")) "X"
        (.dict [("current_date", .int 1000)])
      = (⟨1000, "X", ""⟩, true, Option.none) ∧
    (⟨1000, "X", ""⟩ : PollState) ≠ ⟨0, "", ""⟩ :=
  ⟨rfl, by decide⟩

/-- C1 amended: when the derived status differs from last_status, the
delivery is attempted and then last_status and the cursor are updated
unconditionally — for every delivery outcome, success or failure alike —
so a failed status notification is not retried next cycle. -/
theorem C1_amended (s : PollState) (d : Delivery) (status : String) (response : PyValue)
    (n : Int) (h1 : status ≠ s.last_status)
    (h2 : response.getItem "current_date" = .ok (.int n)) :
    diffNotify s d status response = (⟨n, status, s.error_message⟩, true, Option.none) := by
  unfold diffNotify
  rw [send_message_ok, h2]
  simp [h1, pyInt]

/-- Witness for C1 amended: a successful delivery cycle updates both
fields. -/
theorem C1_amended_witness :
    diffNotify ⟨5, "old", "e"⟩ .success "new" (.dict [("current_date", .int 42)])
      = (⟨42, "new", "e"⟩, true, Option.none) :=
  C1_amended ⟨5, "old", "e"⟩ .success "new" (.dict [("current_date", .int 42)]) 42
    (by decide) rfl

/-- C2 counterexample: the claim says a cycle whose error delivery fails
leaves error_message unchanged; but with the delivery capability raising,
the error-notification step for message "E" still sets error_message to
"E" — send_message swallows the failure, so the assignment after it always
runs. -/
theorem C2_counterexample :
    errorNotify ⟨0, "", ""⟩ (.failure (.requestException "network down")) "E"
      = (⟨0, "", "E"⟩, .delivered) ∧
    ("E" : String) ≠ "" :=
  ⟨rfl, by decide⟩

/-- C2 amended: whenever the formatted error text differs from
error_message, delivery is attempted and error_message is set to the new
text unconditionally, whatever the delivery outcome — a delivery failure
is swallowed inside send_message and does not block the update. -/
theorem C2_amended (s : PollState) (d : Delivery) (m : String)
    (h : m ≠ s.error_message) :
    errorNotify s d m = ({ s with error_message := m }, .delivered) :=
  errorNotify_deliver s d m h

/-- Witness for C2 amended: a failing delivery still records the new
error text. -/
theorem C2_amended_witness :
    errorNotify ⟨0, "a", "olde"⟩ (.failure (.typeError "boom")) "newe"
      = (⟨0, "a", "newe"⟩, .delivered) :=
  C2_amended ⟨0, "a", "olde"⟩ (.failure (.typeError "boom")) "newe" (by decide)

/-- C4 counterexample: on the record with homework_name "A" and status
approved, parse_status returns the Russian template of the source, which
is not the English string the claim demands. -/
theorem C4_counterexample :
    parse_status (.dict [("homework_name", .str "A"), ("status", .str "approved")])
      = .ok "Изменился статус проверки работы \"A\". Работа проверена: ревьюеру всё понравилось. Ура!" ∧
    "Изменился статус проверки работы \"A\". Работа проверена: ревьюеру всё понравилось. Ура!"
      ≠ "Changed review status of \"A\". Review complete: the reviewer liked everything. Hooray!" :=
  ⟨rfl, by decide⟩

/-- C4 amended: extract fails with the missing-name KeyError when
homework_name is absent or falsy; fails with the missing-status KeyError
when status is absent, falsy, or a hashable value that is not a catalog
key; a truthy unhashable status (a list or a dict) instead raises the
TypeError of the membership test; and otherwise it returns exactly the
template of the source (the Russian text with the name rendered by
Python str, not the English rendering of the claim). -/
theorem C4_parse_status_amended (kvs : List (String × PyValue)) :
    (optTruthy (assoc "homework_name" kvs) = false →
      parse_status (.dict kvs)
        = .error (.keyError "В ответе API домашней работы нет ключа \"homework_name\"")) ∧
    (optTruthy (assoc "homework_name" kvs) = true →
      (optTruthy (assoc "status" kvs) = false ∨
        statusMember (assoc "status" kvs) = .ok false) →
      parse_status (.dict kvs)
        = .error (.keyError "В ответе API домашней работы нет статуса или статус неизвестен.")) ∧
    (∀ e, optTruthy (assoc "homework_name" kvs) = true →
      optTruthy (assoc "status" kvs) = true →
      statusMember (assoc "status" kvs) = .error e →
      parse_status (.dict kvs) = .error e) ∧
    (∀ v, optTruthy (assoc "homework_name" kvs) = true →
      verdictOf (assoc "status" kvs) = some v →
      parse_status (.dict kvs)
        = .ok ("Изменился статус проверки работы \"" ++
               pystr (assoc "homework_name" kvs) ++ "\". " ++ v)) := by
  refine ⟨?_, ?_, ?_, ?_⟩
  · intro h
    simp [parse_status, PyValue.getAttrGet, h]
  · intro hn hst
    rcases hst with hst | hst
    · simp [parse_status, PyValue.getAttrGet, hn, hst]
    · by_cases htr : optTruthy (assoc "status" kvs) = true
      · simp [parse_status, PyValue.getAttrGet, hn, htr, hst]
      · rw [Bool.not_eq_true] at htr
        simp [parse_status, PyValue.getAttrGet, hn, htr]
  · intro e hn htr he
    simp [parse_status, PyValue.getAttrGet, hn, htr, he]
  · intro v hn hv
    have ht := verdictOf_truthy _ _ hv
    have hm := verdictOf_member _ _ hv
    simp [parse_status, PyValue.getAttrGet, hn, ht, hm, hv]

/-- Witness for C4 amended: the four rules at concrete records — missing
name, unknown hashable status, truthy unhashable status, and the template
instance of the testable-properties section in its source (Russian)
form. -/
theorem C4_parse_status_amended_witness :
    parse_status (.dict [])
      = .error (.keyError "В ответе API домашней работы нет ключа \"homework_name\"") ∧
    parse_status (.dict [("homework_name", .str "A"), ("status", .str "unknown_code")])
      = .error (.keyError "В ответе API домашней работы нет статуса или статус неизвестен.") ∧
    parse_status (.dict [("homework_name", .str "A"), ("status", .list [.int 1])])
      = .error (.typeError "unhashable type: \x27list\x27") ∧
    parse_status (.dict [("homework_name", .str "A"), ("status", .str "approved")])
      = .ok "Изменился статус проверки работы \"A\". Работа проверена: ревьюеру всё понравилось. Ура!" := by
  refine ⟨(C4_parse_status_amended []).1 rfl,
    (C4_parse_status_amended _).2.1 rfl (Or.inr rfl),
    (C4_parse_status_amended _).2.2.1 (.typeError "unhashable type: \x27list\x27")
      rfl rfl rfl, ?_⟩
  have h := (C4_parse_status_amended
      [("homework_name", PyValue.str "A"), ("status", PyValue.str "approved")]).2.2.2
      "Работа проверена: ревьюеру всё понравилось. Ура!" rfl rfl
  exact h.trans rfl

/-- C6: two consecutive error-path cycles with the identical error text
attempt at most one delivery (the second never attempts, whatever the
first did), and a subsequent cycle with a different error text attempts a
further delivery. -/
theorem C6_error_dedup (s : PollState) (d1 d2 d3 : Delivery) (m m2 : String)
    (h : m2 ≠ m) :
    (errorNotify (errorNotify s d1 m).1 d2 m).2.attempted = false ∧
    (errorNotify (errorNotify (errorNotify s d1 m).1 d2 m).1 d3 m2).2.attempted = true := by
  constructor
  · rw [errorNotify_skip _ d2 m (errorNotify_error_message s d1 m).symm]
    rfl
  · have h3 : m2 ≠ (errorNotify (errorNotify s d1 m).1 d2 m).1.error_message := by
      rw [errorNotify_error_message]; exact h
    rw [errorNotify_deliver _ d3 m2 h3]
    rfl

/-- Witness for C6: identical texts "a", "a" then a different text "b". -/
theorem C6_error_dedup_witness :
    (errorNotify (errorNotify ⟨0, "", ""⟩ .success "a").1 .success "a").2.attempted = false ∧
    (errorNotify (errorNotify (errorNotify ⟨0, "", ""⟩ .success "a").1 .success "a").1
        .success "b").2.attempted = true :=
  ⟨(C6_error_dedup ⟨0, "", ""⟩ .success .success .success "a" "b" (by decide)).1,
   (C6_error_dedup ⟨0, "", ""⟩ .success .success .success "a" "b" (by decide)).2⟩

/-- C7: for every state and every cycle environment — so for every
exception any step of the cycle can raise — the cycle returns normally
(no exception escapes the while-body) and the finally-block sleeps the
fixed RETRY_PERIOD of 600 seconds. -/
theorem C7_cycle_total_fixed_sleep (s : PollState) (env : CycleEnv) :
    (runCycle s env).2.1 = Option.none ∧ (runCycle s env).2.2 = RETRY_PERIOD ∧
    RETRY_PERIOD = 600 := by
  unfold runCycle
  split
  · exact ⟨rfl, rfl, rfl⟩
  · rename_i s1 fst e heq
    split
    · rename_i s2 e2 heq2
      exfalso
      have hsnd := errorNotify_snd s1 env.errorSend (errMessage e)
      rw [heq2] at hsnd
      rcases hsnd with h1 | h1 <;> simp at h1
    · exact ⟨rfl, rfl, rfl⟩

/-- C9: the diff-and-notify step is idempotent — with the derived status
equal to last_status it makes no delivery call and leaves the state
unchanged; an empty homeworks list derives exactly last_status; and a
second run of the step with the same status never makes a second delivery
call, whatever the first run did. -/
theorem C9_diff_notify_idempotent :
    (∀ (s : PollState) (d : Delivery) (response : PyValue),
      diffNotify s d s.last_status response = (s, false, Option.none)) ∧
    (∀ last : String, derive_status last (.list []) = .ok last) ∧
    (∀ (s : PollState) (d1 d2 : Delivery) (status : String) (response : PyValue),
      (diffNotify (diffNotify s d1 status response).1 d2 status response).2.1 = false) := by
  refine ⟨fun s d response => diffNotify_noop s d response _ rfl, fun last => rfl, ?_⟩
  intro s d1 d2 status response
  rw [diffNotify_noop _ d2 response status (diffNotify_last_status s d1 status response).symm]

/-- C10: send_message never propagates an exception — for every delivery
outcome, including any raised exception, it returns normally — and
consequently the except NotForSendingError handler of the error path is
unreachable: the error-notification step never takes that branch. -/
theorem C10_send_message_contained :
    (∀ d : Delivery, send_message d = Except.ok ()) ∧
    (∀ (s : PollState) (d : Delivery) (m : String),
      (errorNotify s d m).2 ≠ ErrorNotifyOutcome.handledNotForSending) := by
  refine ⟨send_message_ok, ?_⟩
  intro s d m
  by_cases h : m = s.error_message
  · rw [errorNotify_skip s d m h]
    simp
  · rw [errorNotify_deliver s d m h]
    simp

end Homework
